import Mathlib

/-!
Verification of the swap acquisition-and-submission pipeline in
`src/utils/oslot.js`: the Protocol A relay submitter `executeSwapWithOSlot`
(JSON-RPC variant) and the three-branch provider fetcher
`fetchSwapTransaction`.

The JavaScript is shallowly embedded:

* `JsVal` models JavaScript values as they occur in this code (the values
  produced by `JSON.parse`, plus `undefined` for absent properties).
  Property access, truthiness, string conversion and `JSON.stringify`
  follow the JavaScript semantics actually exercised by the code
  (none of the probed property names collides with a built-in property,
  and object field lists are the de-duplicated output of `JSON.parse`).
* HTTP effects are oracles: an environment maps each outgoing
  `HttpRequest` to either a thrown error or an `HttpResponse`.  A response
  carries the raw body text together with its JSON parse
  (`bodyJson = none` models a body that is not valid JSON, so that
  `response.json()` / `JSON.parse` fail on it).  `JSON.stringify` of a
  request body is applied at the transport boundary; requests carry the
  pre-serialization value.
* Thrown JavaScript errors are `JsError`; functions return a `JsResult`
  (normal return or thrown error) paired with the list of HTTP requests
  they issued, in order.
-/

/-- A JavaScript value as seen by `oslot.js`: the image of `JSON.parse`
plus `undefined` (absent properties).  Numbers are modelled as integers:
every number this code manipulates (`id: 1`, `maxRetries: 0`, amounts and
slippage in basis points) is integral. -/
inductive JsVal where
  | undefined
  | null
  | bool (b : Bool)
  | num (n : Int)
  | str (s : String)
  | arr (elems : List JsVal)
  | obj (fields : List (String × JsVal))

mutual
def JsVal.decEq : (a b : JsVal) → Decidable (a = b)
  | .undefined, .undefined => isTrue rfl
  | .undefined, .null => isFalse (fun h => JsVal.noConfusion h)
  | .undefined, .bool b => isFalse (fun h => JsVal.noConfusion h)
  | .undefined, .num b => isFalse (fun h => JsVal.noConfusion h)
  | .undefined, .str b => isFalse (fun h => JsVal.noConfusion h)
  | .undefined, .arr b => isFalse (fun h => JsVal.noConfusion h)
  | .undefined, .obj b => isFalse (fun h => JsVal.noConfusion h)
  | .null, .undefined => isFalse (fun h => JsVal.noConfusion h)
  | .null, .null => isTrue rfl
  | .null, .bool b => isFalse (fun h => JsVal.noConfusion h)
  | .null, .num b => isFalse (fun h => JsVal.noConfusion h)
  | .null, .str b => isFalse (fun h => JsVal.noConfusion h)
  | .null, .arr b => isFalse (fun h => JsVal.noConfusion h)
  | .null, .obj b => isFalse (fun h => JsVal.noConfusion h)
  | .bool a, .undefined => isFalse (fun h => JsVal.noConfusion h)
  | .bool a, .null => isFalse (fun h => JsVal.noConfusion h)
  | .bool a, .bool b =>
    if h : a = b then isTrue (by rw [h]) else isFalse (fun he => h (JsVal.bool.inj he))
  | .bool a, .num b => isFalse (fun h => JsVal.noConfusion h)
  | .bool a, .str b => isFalse (fun h => JsVal.noConfusion h)
  | .bool a, .arr b => isFalse (fun h => JsVal.noConfusion h)
  | .bool a, .obj b => isFalse (fun h => JsVal.noConfusion h)
  | .num a, .undefined => isFalse (fun h => JsVal.noConfusion h)
  | .num a, .null => isFalse (fun h => JsVal.noConfusion h)
  | .num a, .bool b => isFalse (fun h => JsVal.noConfusion h)
  | .num a, .num b =>
    if h : a = b then isTrue (by rw [h]) else isFalse (fun he => h (JsVal.num.inj he))
  | .num a, .str b => isFalse (fun h => JsVal.noConfusion h)
  | .num a, .arr b => isFalse (fun h => JsVal.noConfusion h)
  | .num a, .obj b => isFalse (fun h => JsVal.noConfusion h)
  | .str a, .undefined => isFalse (fun h => JsVal.noConfusion h)
  | .str a, .null => isFalse (fun h => JsVal.noConfusion h)
  | .str a, .bool b => isFalse (fun h => JsVal.noConfusion h)
  | .str a, .num b => isFalse (fun h => JsVal.noConfusion h)
  | .str a, .str b =>
    if h : a = b then isTrue (by rw [h]) else isFalse (fun he => h (JsVal.str.inj he))
  | .str a, .arr b => isFalse (fun h => JsVal.noConfusion h)
  | .str a, .obj b => isFalse (fun h => JsVal.noConfusion h)
  | .arr a, .undefined => isFalse (fun h => JsVal.noConfusion h)
  | .arr a, .null => isFalse (fun h => JsVal.noConfusion h)
  | .arr a, .bool b => isFalse (fun h => JsVal.noConfusion h)
  | .arr a, .num b => isFalse (fun h => JsVal.noConfusion h)
  | .arr a, .str b => isFalse (fun h => JsVal.noConfusion h)
  | .arr a, .arr b =>
    match JsVal.decEqList a b with
    | isTrue h => isTrue (by rw [h])
    | isFalse h => isFalse (fun he => h (JsVal.arr.inj he))
  | .arr a, .obj b => isFalse (fun h => JsVal.noConfusion h)
  | .obj a, .undefined => isFalse (fun h => JsVal.noConfusion h)
  | .obj a, .null => isFalse (fun h => JsVal.noConfusion h)
  | .obj a, .bool b => isFalse (fun h => JsVal.noConfusion h)
  | .obj a, .num b => isFalse (fun h => JsVal.noConfusion h)
  | .obj a, .str b => isFalse (fun h => JsVal.noConfusion h)
  | .obj a, .arr b => isFalse (fun h => JsVal.noConfusion h)
  | .obj a, .obj b =>
    match JsVal.decEqFields a b with
    | isTrue h => isTrue (by rw [h])
    | isFalse h => isFalse (fun he => h (JsVal.obj.inj he))
def JsVal.decEqList : (a b : List JsVal) → Decidable (a = b)
  | [], [] => isTrue rfl
  | [], _ :: _ => isFalse (fun h => List.noConfusion h)
  | _ :: _, [] => isFalse (fun h => List.noConfusion h)
  | x :: xs, y :: ys =>
    match JsVal.decEq x y, JsVal.decEqList xs ys with
    | isTrue h1, isTrue h2 => isTrue (by rw [h1, h2])
    | isFalse h1, _ => isFalse (fun he => h1 (List.cons.injEq .. ▸ he).1)
    | _, isFalse h2 => isFalse (fun he => h2 (List.cons.injEq .. ▸ he).2)
def JsVal.decEqFields : (a b : List (String × JsVal)) → Decidable (a = b)
  | [], [] => isTrue rfl
  | [], _ :: _ => isFalse (fun h => List.noConfusion h)
  | _ :: _, [] => isFalse (fun h => List.noConfusion h)
  | (k1, v1) :: xs, (k2, v2) :: ys =>
    if hk : k1 = k2 then
      match JsVal.decEq v1 v2, JsVal.decEqFields xs ys with
      | isTrue h1, isTrue h2 => isTrue (by rw [hk, h1, h2])
      | isFalse h1, _ => isFalse (fun he => h1 (congrArg (fun l => ((l.headD (k1, v1)).2)) he))
      | _, isFalse h2 => isFalse (fun he => h2 (List.cons.injEq .. ▸ he).2)
    else isFalse (fun he => hk (congrArg (fun l => ((l.headD (k1, v1)).1)) he))
end

instance : DecidableEq JsVal := JsVal.decEq

/-- JavaScript truthiness of a value (`if (v)` and `v || w`).  `NaN` is not
representable in the integer number model; no value this code tests for
truthiness can be `NaN`. -/
def truthy : JsVal → Bool
  | .undefined => false
  | .null => false
  | .bool b => b
  | .num n => n != 0
  | .str s => s != ""
  | .arr _ => true
  | .obj _ => true

/-- `v` is `null` or `undefined`: property access on it throws a
`TypeError`. -/
def isNullish : JsVal → Bool
  | .undefined => true
  | .null => true
  | _ => false

def lookupField : List (String × JsVal) → String → JsVal
  | [], _ => .undefined
  | (k, v) :: fs, key => if k = key then v else lookupField fs key

/-- JavaScript property access `v.key` on a non-nullish value: a missing
property reads as `undefined`; on a non-object it reads as `undefined`
(no probed name collides with a built-in property).  Access on a nullish
value throws instead, which callers model via `isNullish`. -/
def getField : JsVal → String → JsVal
  | .obj fs, key => lookupField fs key
  | _, _ => .undefined

/-- JavaScript indexed access `v[i]` on an array value. -/
def jsIndex : JsVal → Nat → JsVal
  | .arr xs, i => xs.getD i .undefined
  | _, _ => .undefined

mutual
/-- JavaScript `String(v)` / template-literal conversion. -/
def jsToString : JsVal → String
  | .undefined => "undefined"
  | .null => "null"
  | .bool true => "true"
  | .bool false => "false"
  | .num n => toString n
  | .str s => s
  | .arr xs => jsToStringItems xs
  | .obj _ => "[object Object]"
/-- `Array.prototype.toString`: elements joined with commas, `null` and
`undefined` elements rendering as the empty string. -/
def jsToStringItems : List JsVal → String
  | [] => ""
  | [x] =>
    match x with
    | .undefined => ""
    | .null => ""
    | v => jsToString v
  | x :: xs =>
    (match x with
     | .undefined => ""
     | .null => ""
     | v => jsToString v) ++ "," ++ jsToStringItems xs
end

/-- JSON string-literal escaping as performed by `JSON.stringify`. -/
def jsonEscapeChar (c : Char) : String :=
  if c = '\"' then "\\\""
  else if c = '\\' then "\\\\"
  else if c = '\n' then "\\n"
  else if c = '\r' then "\\r"
  else if c = '\t' then "\\t"
  else String.singleton c

def jsonQuote (s : String) : String :=
  "\"" ++ String.join (s.toList.map jsonEscapeChar) ++ "\""

mutual
/-- `JSON.stringify`: `none` for `undefined` (which serializes to nothing);
object properties with `undefined` values are skipped; `undefined` array
elements serialize as `null`. -/
def stringifyJson : JsVal → Option String
  | .undefined => none
  | .null => some "null"
  | .bool true => some "true"
  | .bool false => some "false"
  | .num n => some (toString n)
  | .str s => some (jsonQuote s)
  | .arr xs => some ("[" ++ String.intercalate "," (stringifyItems xs) ++ "]")
  | .obj fs => some ("\x7b" ++ String.intercalate "," (stringifyProps fs) ++ "\x7d")
def stringifyItems : List JsVal → List String
  | [] => []
  | x :: xs => ((stringifyJson x).getD "null") :: stringifyItems xs
def stringifyProps : List (String × JsVal) → List String
  | [] => []
  | (k, v) :: fs =>
    match stringifyJson v with
    | none => stringifyProps fs
    | some sv => (jsonQuote k ++ ":" ++ sv) :: stringifyProps fs
end

def charsStartWith (haystack needle : List Char) : Bool :=
  match haystack, needle with
  | _, [] => true
  | [], _ :: _ => false
  | a :: as, b :: bs => a == b && charsStartWith as bs

def charsContain (haystack needle : List Char) : Bool :=
  charsStartWith haystack needle ||
  match haystack with
  | [] => false
  | _ :: as => charsContain as needle

/-- JavaScript `String.prototype.includes`. -/
def jsIncludes (s sub : String) : Bool := charsContain s.toList sub.toList

/-- UTF-8 code units of a character, as byte values. -/
def utf8Units (c : Char) : List Nat :=
  let n := c.toNat
  if n < 128 then [n]
  else if n < 2048 then [192 + n / 64, 128 + n % 64]
  else if n < 65536 then [224 + n / 4096, 128 + (n / 64) % 64, 128 + n % 64]
  else [240 + n / 262144, 128 + (n / 4096) % 64, 128 + (n / 64) % 64, 128 + n % 64]

def hexDigits : List Char := "0123456789ABCDEF".toList

def byteHex (b : Nat) : String :=
  String.singleton (hexDigits.getD (b / 16) '0') ++ String.singleton (hexDigits.getD (b % 16) '0')

/-- The `application/x-www-form-urlencoded` serializer used by
`URLSearchParams`: alphanumerics and `*-._` pass through, space becomes
`+`, every other byte is percent-encoded. -/
def formEncodeByte (b : Nat) : String :=
  if b = 32 then "+"
  else if (48 ≤ b && b ≤ 57) || (65 ≤ b && b ≤ 90) || (97 ≤ b && b ≤ 122)
       || b = 42 || b = 45 || b = 46 || b = 95 then
    String.singleton (Char.ofNat b)
  else "%" ++ byteHex b

def formEncode (s : String) : String :=
  String.join (s.toList.map (fun c => String.join ((utf8Units c).map formEncodeByte)))

/-- `URLSearchParams({...}).toString()`. -/
def mkQueryString (pairs : List (String × String)) : String :=
  String.intercalate "&" (pairs.map (fun p => formEncode p.1 ++ "=" ++ formEncode p.2))

/-- A thrown JavaScript error. -/
inductive JsError where
  /-- `new Error(message)` thrown by `oslot.js` itself. -/
  | error (message : String)
  /-- `TypeError` from property access on `null`/`undefined`. -/
  | typeError
  /-- `SyntaxError` from `response.json()` on a body that is not valid JSON. -/
  | jsonParse
  /-- An error thrown by an external collaborator (network, wallet signer,
  transaction library), identified opaquely. -/
  | external (code : Nat)
deriving DecidableEq

/-- Result of a JavaScript async function: normal return value or thrown
error. -/
inductive JsResult where
  | ok (v : JsVal)
  | err (e : JsError)
deriving DecidableEq

def JsResult.isOk : JsResult → Bool
  | .ok _ => true
  | .err _ => false

/-- An HTTP request as issued through `fetch` (or the bare `fetch(url)`
form).  `body` is the JavaScript value passed to `JSON.stringify` at the
call site; `contentTypeJson` records whether the
`Content-Type: application/json` header was attached. -/
structure HttpRequest where
  method : String
  url : String
  contentTypeJson : Bool
  body : Option JsVal
deriving DecidableEq

/-- An HTTP response as observed by the code: `bodyText` is
`await response.text()`; `bodyJson` is the JSON parse of the same body
(`none` when the body is not valid JSON, making `response.json()` and
`JSON.parse` fail). -/
structure HttpResponse where
  status : Nat
  statusText : String
  bodyText : String
  bodyJson : Option JsVal
deriving DecidableEq

/-- `response.ok`: status in the inclusive range 200–299. -/
def HttpResponse.isOkStatus (r : HttpResponse) : Bool :=
  200 ≤ r.status && r.status ≤ 299

/-- External capabilities used by `executeSwapWithOSlot` (oslot.js lines
26–33 and 61): transaction decode, the wallet signer, signed-transaction
re-encoding, and the network.  `τ` is the opaque type of decoded
transactions (`VersionedTransaction`).  Each capability may throw. -/
structure SubmitEnv (τ : Type) where
  /-- `Buffer.from(transactionBase64, "base64")` +
  `VersionedTransaction.deserialize` (lines 26–27). -/
  deserialize : String → Except JsError τ
  /-- `await signTransaction(versionedTransaction)` (line 30). -/
  signTransaction : τ → Except JsError τ
  /-- `Buffer.from(signedTransaction.serialize()).toString("base64")`
  (line 33). -/
  serializeB64 : τ → Except JsError String
  /-- The global `fetch` (line 61). -/
  fetch : HttpRequest → Except JsError HttpResponse

/-- The JSON-RPC 2.0 payload built at oslot.js lines 39–53. -/
def oslotPayload (serializedTx : String) : JsVal :=
  .obj [("jsonrpc", .str "2.0"),
        ("id", .num 1),
        ("method", .str "sendTransaction"),
        ("params", .arr [.str serializedTx,
          .obj [("encoding", .str "base64"),
                ("skipPreflight", .bool true),
                ("preflightCommitment", .str "processed"),
                ("maxRetries", .num 0),
                ("minContextSlot", .null)]])]

/-- The POST issued at oslot.js lines 61–67. -/
def relayRequest (endpoint serializedTx : String) : HttpRequest :=
  ⟨"POST", endpoint, true, some (oslotPayload serializedTx)⟩

/-- The message of the error thrown for a truthy `responseData.error`
(oslot.js line 118):
`0slot error: ${responseData.error.message || JSON.stringify(responseData.error)}`.
The `getD` default is unreachable: a truthy value is never `undefined`,
so `JSON.stringify` of it is defined. -/
def relayErrorMessage (e : JsVal) : String :=
  "0slot error: " ++
    (if truthy (getField e "message") then jsToString (getField e "message")
     else (stringifyJson e).getD "undefined")

/-- Normalization of a status-200 relay body (oslot.js lines 106–137):
`result`, then `error`, then the fallback fields `signature`, `txid`,
`txSignature`, each probed for truthiness; a nullish body throws a
`TypeError` at the first property access (`responseData.result`). -/
def executeSwapNormalize200 (responseData : JsVal) : JsResult :=
  if isNullish responseData then .err .typeError
  else if truthy (getField responseData "result") then
    .ok (getField responseData "result")
  else if truthy (getField responseData "error") then
    .err (.error (relayErrorMessage (getField responseData "error")))
  else if truthy (getField responseData "signature") then
    .ok (getField responseData "signature")
  else if truthy (getField responseData "txid") then
    .ok (getField responseData "txid")
  else if truthy (getField responseData "txSignature") then
    .ok (getField responseData "txSignature")
  else .err (.error "Unexpected response format from 0slot endpoint")

/-- The generic non-200 message template of oslot.js line 82. -/
def extractNon200Generic (status : Nat) : String :=
  "0slot execution failed: incorrect status code: " ++ toString status

/-- Best-effort message extraction for a non-200 relay response
(oslot.js lines 82–96).  `parsed` is `JSON.parse(errorText)` when the body
is valid JSON, `none` otherwise.  A nullish parse result makes
`errorData.error` throw inside the `try`, landing in the same `catch` as a
parse failure, which appends the raw text to the generic message when the
text is non-empty. -/
def extractNon200Message (status : Nat) (errorText : String) (parsed : Option JsVal) : String :=
  match parsed with
  | none =>
    if errorText == "" then extractNon200Generic status
    else extractNon200Generic status ++ ", " ++ errorText
  | some errorData =>
    if isNullish errorData then
      if errorText == "" then extractNon200Generic status
      else extractNon200Generic status ++ ", " ++ errorText
    else if truthy (getField errorData "error") then
      if truthy (getField (getField errorData "error") "message") then
        jsToString (getField (getField errorData "error") "message")
      else if truthy (getField (getField errorData "error") "code") then
        jsToString (getField (getField errorData "error") "code")
      else extractNon200Generic status
    else if truthy (getField errorData "message") then
      jsToString (getField errorData "message")
    else extractNon200Generic status

/-- The `try` body of `executeSwapWithOSlot` (oslot.js lines 21–137),
paired with the list of HTTP requests it issues. -/
def executeSwapTry {τ : Type} (env : SubmitEnv τ) (transactionBase64 endpoint : String) :
    JsResult × List HttpRequest :=
  match env.deserialize transactionBase64 with
  | .error e => (.err e, [])
  | .ok versionedTransaction =>
  match env.signTransaction versionedTransaction with
  | .error e => (.err e, [])
  | .ok signedTransaction =>
  match env.serializeB64 signedTransaction with
  | .error e => (.err e, [])
  | .ok serializedTx =>
  match env.fetch (relayRequest endpoint serializedTx) with
  | .error e => (.err e, [relayRequest endpoint serializedTx])
  | .ok response =>
    if response.status ≠ 200 then
      (.err (.error (extractNon200Message response.status response.bodyText response.bodyJson)),
       [relayRequest endpoint serializedTx])
    else
      match response.bodyJson with
      | none => (.err .jsonParse, [relayRequest endpoint serializedTx])
      | some responseData =>
        (executeSwapNormalize200 responseData, [relayRequest endpoint serializedTx])

/-- `executeSwapWithOSlot` (oslot.js lines 13–143, the JSON-RPC Protocol A
variant): the `try` body wrapped in the top-level `catch` of lines
138–142, which records the elapsed total time, logs, and re-throws the
caught error unchanged. -/
def executeSwapWithOSlot {τ : Type} (env : SubmitEnv τ) (transactionBase64 endpoint : String) :
    JsResult × List HttpRequest :=
  match executeSwapTry env transactionBase64 endpoint with
  | (.ok v, reqs) => (.ok v, reqs)
  | (.err e, reqs) => (.err e, reqs)

/-- The swap parameters consumed by `fetchSwapTransaction` — the fields it
reads (`inputMint`, `outputMint`, `amount`, `slippageBps`), with
`slippageBps = none` modelling an absent (`undefined`) property. -/
structure SwapParams where
  inputMint : String
  outputMint : String
  amount : Int
  slippageBps : Option Int
deriving DecidableEq

/-- The swap-parameter object as serialized verbatim in the legacy branch
(`JSON.stringify(swapParams)`): an absent `slippageBps` contributes no
property. -/
def SwapParams.toJsVal (p : SwapParams) : JsVal :=
  .obj ([("inputMint", .str p.inputMint),
         ("outputMint", .str p.outputMint),
         ("amount", .num p.amount)] ++
        (match p.slippageBps with
         | some n => [("slippageBps", .num n)]
         | none => []))

/-- `swapParams.slippageBps || 50` (oslot.js lines 164 and 201): `||`
takes the right operand for any falsy left operand, so both an absent
slippage and an explicit `0` yield 50. -/
def slippageOr50 : Option Int → Int
  | none => 50
  | some n => if n = 0 then 50 else n

/-- Branch predicate of oslot.js line 157 (first file version):
`swapEndpoint.includes("route/solana/swap") || swapEndpoint.includes("localhost:4000")`. -/
def isAggEndpoint (e : String) : Bool :=
  jsIncludes e "route/solana/swap" || jsIncludes e "localhost:4000"

/-- Branch predicate of oslot.js line 361 (second file version):
`swapEndpoint.includes("route/solana/swap") || swapEndpoint.includes("metaagg.velvetdao.xyz")`. -/
def isAggEndpointV2 (e : String) : Bool :=
  jsIncludes e "route/solana/swap" || jsIncludes e "metaagg.velvetdao.xyz"

/-- Branch predicate of oslot.js line 194:
`swapEndpoint.includes("quote-api.jup.ag") || swapEndpoint.includes("/quote")`. -/
def isQuoteEndpoint (e : String) : Bool :=
  jsIncludes e "quote-api.jup.ag" || jsIncludes e "/quote"

inductive FetchBranch where
  | aggregator
  | quote
  | legacy
deriving DecidableEq

/-- The `if / else if / else` dispatch of `fetchSwapTransaction`
(oslot.js lines 157, 194, 245), first file version. -/
def selectBranch (e : String) : FetchBranch :=
  if isAggEndpoint e then .aggregator
  else if isQuoteEndpoint e then .quote
  else .legacy

/-- The same dispatch in the second file version (oslot.js lines 361,
398, 449), differing only in the second aggregator marker. -/
def selectBranchV2 (e : String) : FetchBranch :=
  if isAggEndpointV2 e then .aggregator
  else if isQuoteEndpoint e then .quote
  else .legacy

/-- Query parameters built at oslot.js lines 159–165. -/
def aggregatorQuery (p : SwapParams) (userPublicKey : String) : List (String × String) :=
  [("tokenIn", p.inputMint),
   ("tokenOut", p.outputMint),
   ("amount", toString p.amount),
   ("sender", userPublicKey),
   ("slippage", toString (slippageOr50 p.slippageBps))]

/-- The GET issued at oslot.js lines 167–175. -/
def aggregatorRequest (e : String) (p : SwapParams) (userPublicKey : String) : HttpRequest :=
  ⟨"GET", e ++ "?" ++ mkQueryString (aggregatorQuery p userPublicKey), true, none⟩

/-- Query parameters built at oslot.js lines 197–209. -/
def quoteQuery (p : SwapParams) : List (String × String) :=
  [("inputMint", p.inputMint),
   ("outputMint", p.outputMint),
   ("amount", toString p.amount),
   ("slippageBps", toString (slippageOr50 p.slippageBps))]

/-- The bare `fetch(quoteUrl)` of oslot.js line 211: a GET with no
headers. -/
def quoteRequest (e : String) (p : SwapParams) : HttpRequest :=
  ⟨"GET", e ++ "?" ++ mkQueryString (quoteQuery p), false, none⟩

/-- The body POSTed to the fixed Jupiter swap-construction endpoint
(oslot.js lines 224–230). -/
def jupiterSwapBody (quoteData : JsVal) (userPublicKey : String) : JsVal :=
  .obj [("quoteResponse", quoteData),
        ("userPublicKey", .str userPublicKey),
        ("wrapAndUnwrapSol", .bool true),
        ("dynamicComputeUnitLimit", .bool true),
        ("prioritizationFeeLamports", .str "auto")]

/-- The POST issued at oslot.js lines 219–231. -/
def jupiterSwapRequest (quoteData : JsVal) (userPublicKey : String) : HttpRequest :=
  ⟨"POST", "https://quote-api.jup.ag/v6/swap", true, some (jupiterSwapBody quoteData userPublicKey)⟩

/-- The POST issued at oslot.js lines 247–253 (legacy branch). -/
def legacyRequest (e : String) (p : SwapParams) : HttpRequest :=
  ⟨"POST", e, true, some p.toJsVal⟩

/-- Aggregator branch of `fetchSwapTransaction` (oslot.js lines 157–193). -/
def fetchAggregator (env : HttpRequest → Except JsError HttpResponse)
    (e : String) (p : SwapParams) (userPublicKey : String) : JsResult × List HttpRequest :=
  match env (aggregatorRequest e p userPublicKey) with
  | .error err => (.err err, [aggregatorRequest e p userPublicKey])
  | .ok response =>
    if !response.isOkStatus then
      (.err (.error ("Failed to fetch swap transaction: " ++ response.statusText
        ++ " - " ++ response.bodyText)), [aggregatorRequest e p userPublicKey])
    else
      match response.bodyJson with
      | none => (.err .jsonParse, [aggregatorRequest e p userPublicKey])
      | some responseData =>
        if isNullish responseData then (.err .typeError, [aggregatorRequest e p userPublicKey])
        else if truthy (getField responseData "data")
             && truthy (getField (getField responseData "data") "swapData") then
          (.ok (getField (getField responseData "data") "swapData"),
           [aggregatorRequest e p userPublicKey])
        else
          (.err (.error "Invalid response format from swap endpoint. Expected data.swapData"),
           [aggregatorRequest e p userPublicKey])

/-- Two-step quote branch of `fetchSwapTransaction` (oslot.js lines
194–244). -/
def fetchQuoteBranch (env : HttpRequest → Except JsError HttpResponse)
    (e : String) (p : SwapParams) (userPublicKey : String) : JsResult × List HttpRequest :=
  match env (quoteRequest e p) with
  | .error err => (.err err, [quoteRequest e p])
  | .ok quoteResponse =>
    if !quoteResponse.isOkStatus then
      (.err (.error ("Failed to get quote: " ++ quoteResponse.statusText)), [quoteRequest e p])
    else
      match quoteResponse.bodyJson with
      | none => (.err .jsonParse, [quoteRequest e p])
      | some quoteData =>
        match env (jupiterSwapRequest quoteData userPublicKey) with
        | .error err =>
          (.err err, [quoteRequest e p, jupiterSwapRequest quoteData userPublicKey])
        | .ok swapResponse =>
          if !swapResponse.isOkStatus then
            (.err (.error ("Failed to get swap transaction: " ++ swapResponse.bodyText)),
             [quoteRequest e p, jupiterSwapRequest quoteData userPublicKey])
          else
            match swapResponse.bodyJson with
            | none =>
              (.err .jsonParse, [quoteRequest e p, jupiterSwapRequest quoteData userPublicKey])
            | some swapData =>
              if isNullish swapData then
                (.err .typeError, [quoteRequest e p, jupiterSwapRequest quoteData userPublicKey])
              else if truthy (getField swapData "swapTransaction") then
                (.ok (getField swapData "swapTransaction"),
                 [quoteRequest e p, jupiterSwapRequest quoteData userPublicKey])
              else
                (.err (.error "Invalid response format from Jupiter swap API"),
                 [quoteRequest e p, jupiterSwapRequest quoteData userPublicKey])

/-- Legacy branch of `fetchSwapTransaction` (oslot.js lines 245–270). -/
def fetchLegacy (env : HttpRequest → Except JsError HttpResponse)
    (e : String) (p : SwapParams) : JsResult × List HttpRequest :=
  match env (legacyRequest e p) with
  | .error err => (.err err, [legacyRequest e p])
  | .ok response =>
    if !response.isOkStatus then
      (.err (.error ("Failed to fetch swap transaction: " ++ response.statusText)),
       [legacyRequest e p])
    else
      match response.bodyJson with
      | none => (.err .jsonParse, [legacyRequest e p])
      | some data =>
        if isNullish data then (.err .typeError, [legacyRequest e p])
        else if truthy (getField data "transaction") then
          (.ok (getField data "transaction"), [legacyRequest e p])
        else if truthy (getField data "swapTransaction") then
          (.ok (getField data "swapTransaction"), [legacyRequest e p])
        else if truthy (getField data "tx") then
          (.ok (getField data "tx"), [legacyRequest e p])
        else (.err (.error "Invalid response format from swap endpoint"), [legacyRequest e p])

/-- `fetchSwapTransaction` (oslot.js lines 154–276, first file version),
paired with the list of HTTP requests it issues.  The surrounding
`try`/`catch` (lines 272–275) only logs and re-throws the caught error
unchanged, so it is the identity on this representation. -/
def fetchSwapTransaction (env : HttpRequest → Except JsError HttpResponse)
    (swapEndpoint : String) (swapParams : SwapParams) (userPublicKey : String) :
    JsResult × List HttpRequest :=
  match selectBranch swapEndpoint with
  | .aggregator => fetchAggregator env swapEndpoint swapParams userPublicKey
  | .quote => fetchQuoteBranch env swapEndpoint swapParams userPublicKey
  | .legacy => fetchLegacy env swapEndpoint swapParams

/-- Spec §4.1 fallback priority list for Protocol A, written as the spec
states it: an explicit ordered list of signature-bearing fields. -/
def relayFallbackFields : List String := ["signature", "txid", "txSignature"]

/-- Protocol A 200-response normalization as the spec describes it
(§3/§4.1), with presence read as truthiness: `result`, then `error`, then
the first truthy field of `relayFallbackFields`, else unrecognized. -/
def specRelayNormalize (d : JsVal) : JsResult :=
  if truthy (getField d "result") then .ok (getField d "result")
  else if truthy (getField d "error") then
    .err (.error (relayErrorMessage (getField d "error")))
  else
    match relayFallbackFields.find? (fun k => truthy (getField d k)) with
    | some k => .ok (getField d k)
    | none => .err (.error "Unexpected response format from 0slot endpoint")

/-- The Protocol A envelope exactly as claim C6 and spec §4.1 state it:
the second params element carries only `encoding`, `skipPreflight`,
`preflightCommitment` and `maxRetries`. -/
def specOSlotPayloadClaim (serializedTx : String) : JsVal :=
  .obj [("jsonrpc", .str "2.0"),
        ("id", .num 1),
        ("method", .str "sendTransaction"),
        ("params", .arr [.str serializedTx,
          .obj [("encoding", .str "base64"),
                ("skipPreflight", .bool true),
                ("preflightCommitment", .str "processed"),
                ("maxRetries", .num 0)]])]

/-- Spec §4.2 order of the three synonymous legacy fields. -/
def legacyFieldOrder : List String := ["transaction", "swapTransaction", "tx"]

/-- Legacy-branch body extraction as the spec describes it, with presence
read as truthiness: the value of the first truthy field of
`legacyFieldOrder`, unchanged; none truthy is the invalid-shape error. -/
def specLegacyExtract (d : JsVal) : JsResult :=
  match legacyFieldOrder.find? (fun k => truthy (getField d k)) with
  | some k => .ok (getField d k)
  | none => .err (.error "Invalid response format from swap endpoint")

/-! ## Helper lemmas -/

theorem executeSwap_eq_try {τ : Type} (env : SubmitEnv τ) (tx ep : String) :
    executeSwapWithOSlot env tx ep = executeSwapTry env tx ep := by
  cases h : executeSwapTry env tx ep with
  | mk r reqs => cases r <;> simp [executeSwapWithOSlot, h]

theorem normalize200_ok_truthy (d : JsVal) (v : JsVal)
    (h : executeSwapNormalize200 d = .ok v) : truthy v = true := by
  unfold executeSwapNormalize200 at h
  split_ifs at h <;> simp_all

theorem executeSwapTry_ok_truthy {τ : Type} (env : SubmitEnv τ) (tx ep : String) (v : JsVal)
    (h : (executeSwapTry env tx ep).1 = .ok v) : truthy v = true := by
  unfold executeSwapTry at h
  repeat' split at h
  all_goals simp_all
  exact normalize200_ok_truthy _ _ h

theorem fetchAggregator_ok_truthy (env : HttpRequest → Except JsError HttpResponse)
    (e : String) (p : SwapParams) (u : String) (v : JsVal)
    (h : (fetchAggregator env e p u).1 = .ok v) : truthy v = true := by
  unfold fetchAggregator at h
  repeat' split at h
  all_goals simp_all

theorem fetchQuoteBranch_ok_truthy (env : HttpRequest → Except JsError HttpResponse)
    (e : String) (p : SwapParams) (u : String) (v : JsVal)
    (h : (fetchQuoteBranch env e p u).1 = .ok v) : truthy v = true := by
  unfold fetchQuoteBranch at h
  repeat' split at h
  all_goals simp_all

theorem fetchLegacy_ok_truthy (env : HttpRequest → Except JsError HttpResponse)
    (e : String) (p : SwapParams) (v : JsVal)
    (h : (fetchLegacy env e p).1 = .ok v) : truthy v = true := by
  unfold fetchLegacy at h
  repeat' split at h
  all_goals simp_all

theorem fetchSwapTransaction_ok_truthy (env : HttpRequest → Except JsError HttpResponse)
    (e : String) (p : SwapParams) (u : String) (v : JsVal)
    (h : (fetchSwapTransaction env e p u).1 = .ok v) : truthy v = true := by
  unfold fetchSwapTransaction at h
  split at h
  · exact fetchAggregator_ok_truthy env e p u v h
  · exact fetchQuoteBranch_ok_truthy env e p u v h
  · exact fetchLegacy_ok_truthy env e p v h

theorem executeSwapTry_network {τ : Type} (env : SubmitEnv τ) (tx ep : String)
    (t1 t2 : τ) (stx : String)
    (h1 : env.deserialize tx = .ok t1) (h2 : env.signTransaction t1 = .ok t2)
    (h3 : env.serializeB64 t2 = .ok stx) :
    executeSwapTry env tx ep =
      (match env.fetch (relayRequest ep stx) with
       | .error er => (.err er, [relayRequest ep stx])
       | .ok response =>
         if response.status ≠ 200 then
           (.err (.error
              (extractNon200Message response.status response.bodyText response.bodyJson)),
            [relayRequest ep stx])
         else
           match response.bodyJson with
           | none => (.err .jsonParse, [relayRequest ep stx])
           | some responseData =>
             (executeSwapNormalize200 responseData, [relayRequest ep stx])) := by
  unfold executeSwapTry
  simp only [h1, h2, h3]

theorem fetchSwapTransaction_legacy_eq (env : HttpRequest → Except JsError HttpResponse)
    (e : String) (p : SwapParams) (u : String) (resp : HttpResponse) (d : JsVal)
    (hsel : selectBranch e = .legacy)
    (henv : env (legacyRequest e p) = .ok resp)
    (hok : resp.isOkStatus = true)
    (hjson : resp.bodyJson = some d)
    (hnull : isNullish d = false) :
    (fetchSwapTransaction env e p u).1 =
      (if truthy (getField d "transaction") then .ok (getField d "transaction")
       else if truthy (getField d "swapTransaction") then .ok (getField d "swapTransaction")
       else if truthy (getField d "tx") then .ok (getField d "tx")
       else .err (.error "Invalid response format from swap endpoint")) := by
  simp only [fetchSwapTransaction, hsel, fetchLegacy, henv, hok, hjson, hnull,
    Bool.not_true, Bool.false_eq_true, if_false]
  split_ifs <;> rfl

theorem fetchAggregator_head (env : HttpRequest → Except JsError HttpResponse)
    (e : String) (p : SwapParams) (u : String) :
    (fetchAggregator env e p u).2.head? = some (aggregatorRequest e p u) := by
  unfold fetchAggregator
  repeat' split
  all_goals rfl

theorem fetchQuoteBranch_head (env : HttpRequest → Except JsError HttpResponse)
    (e : String) (p : SwapParams) (u : String) :
    (fetchQuoteBranch env e p u).2.head? = some (quoteRequest e p) := by
  unfold fetchQuoteBranch
  repeat' split
  all_goals rfl

theorem fetchLegacy_head (env : HttpRequest → Except JsError HttpResponse)
    (e : String) (p : SwapParams) :
    (fetchLegacy env e p).2.head? = some (legacyRequest e p) := by
  unfold fetchLegacy
  repeat' split
  all_goals rfl

/-! ## Claim theorems -/

/-- C1 counterexample: a 200 relay body whose `result` field is present
but holds the empty string is not a success returning `""` as the
ConfirmationId — the probe tests truthiness, so the body falls through
every probe and submit fails with the unrecognized-response error. -/
theorem c1_counterexample :
    executeSwapNormalize200 (.obj [("result", .str "")]) =
      .err (.error "Unexpected response format from 0slot endpoint") ∧
    (executeSwapNormalize200 (.obj [("result", .str "")])).isOk = false := by
  constructor <;> rfl

/-- C1 (amended): for a 200 relay response whose parsed JSON body is not
null, submit normalizes it by exactly the claimed decision order with
presence read as truthiness (a present but falsy value counts as absent):
a truthy `result` succeeds with its value as the ConfirmationId; otherwise
a truthy `error` fails as relay-rejected; otherwise the fallback fields
are probed in the fixed priority order `signature`, `txid`,
`txSignature`; if none is truthy, submit fails as unrecognized response.
A JSON body of `null` instead throws a `TypeError` at the first probe.
Whenever the relay POST returns status 200 with a JSON body,
`executeSwapWithOSlot` returns exactly this normalization. -/
theorem c1_relay_200_decision_order :
    (∀ d : JsVal, isNullish d = false →
       executeSwapNormalize200 d = specRelayNormalize d) ∧
    executeSwapNormalize200 .null = .err .typeError ∧
    (∀ (τ : Type) (env : SubmitEnv τ) (tx ep : String) (t1 t2 : τ) (stx : String)
       (resp : HttpResponse) (d : JsVal),
       env.deserialize tx = .ok t1 → env.signTransaction t1 = .ok t2 →
       env.serializeB64 t2 = .ok stx →
       env.fetch (relayRequest ep stx) = .ok resp →
       resp.status = 200 → resp.bodyJson = some d →
       (executeSwapWithOSlot env tx ep).1 = executeSwapNormalize200 d) := by
  refine ⟨?_, rfl, ?_⟩
  · intro d h
    unfold executeSwapNormalize200 specRelayNormalize relayFallbackFields
    cases h1 : truthy (getField d "result") <;>
      cases h2 : truthy (getField d "error") <;>
        cases h3 : truthy (getField d "signature") <;>
          cases h4 : truthy (getField d "txid") <;>
            cases h5 : truthy (getField d "txSignature") <;>
              simp [h, h1, h2, h3, h4, h5, List.find?]
  · intro τ env tx ep t1 t2 stx resp d h1 h2 h3 h4 h5 h6
    rw [executeSwap_eq_try, executeSwapTry_network env tx ep t1 t2 stx h1 h2 h3]
    simp [h4, h5, h6]

theorem c1_relay_200_decision_order_witness :
    executeSwapNormalize200 (.obj [("txid", .str "sig9")]) =
      specRelayNormalize (.obj [("txid", .str "sig9")]) ∧
    (executeSwapWithOSlot
      (⟨fun _ => .ok (), fun t => .ok t, fun _ => .ok "c2ln",
        fun _ => .ok ⟨200, "OK", "", some (.obj [("txid", .str "sig9")])⟩⟩ : SubmitEnv Unit)
      "dHg=" "https://de1.0slot.trade/?api-key=k").1 =
      executeSwapNormalize200 (.obj [("txid", .str "sig9")]) :=
  ⟨c1_relay_200_decision_order.1 (.obj [("txid", .str "sig9")]) rfl,
   c1_relay_200_decision_order.2.2 Unit
     (⟨fun _ => .ok (), fun t => .ok t, fun _ => .ok "c2ln",
       fun _ => .ok ⟨200, "OK", "", some (.obj [("txid", .str "sig9")])⟩⟩ : SubmitEnv Unit)
     "dHg=" "https://de1.0slot.trade/?api-key=k" () () "c2ln"
     ⟨200, "OK", "", some (.obj [("txid", .str "sig9")])⟩
     (.obj [("txid", .str "sig9")]) rfl rfl rfl rfl rfl rfl⟩

/-- C2: provider dispatch is substring matching on the endpoint string in
a fixed priority order, first match wins, in both versions of
`fetchSwapTransaction`: an aggregator marker selects the aggregator
branch even when a quote marker is also present; otherwise a quote-API
marker or a `/quote` segment selects the two-step quote branch; otherwise
the legacy branch.  The dispatch governs the actual function: the first
HTTP request `fetchSwapTransaction` issues is the selected branch's
request. -/
theorem c2_branch_selection :
    (∀ e, isAggEndpoint e = true → selectBranch e = .aggregator) ∧
    (∀ e, isAggEndpoint e = false → isQuoteEndpoint e = true → selectBranch e = .quote) ∧
    (∀ e, isAggEndpoint e = false → isQuoteEndpoint e = false → selectBranch e = .legacy) ∧
    (∀ e, isAggEndpointV2 e = true → selectBranchV2 e = .aggregator) ∧
    (∀ e, isAggEndpointV2 e = false → isQuoteEndpoint e = true → selectBranchV2 e = .quote) ∧
    (∀ e, isAggEndpointV2 e = false → isQuoteEndpoint e = false →
       selectBranchV2 e = .legacy) ∧
    (∀ env e p u, selectBranch e = .aggregator →
       (fetchSwapTransaction env e p u).2.head? = some (aggregatorRequest e p u)) ∧
    (∀ env e p u, selectBranch e = .quote →
       (fetchSwapTransaction env e p u).2.head? = some (quoteRequest e p)) ∧
    (∀ env e p u, selectBranch e = .legacy →
       (fetchSwapTransaction env e p u).2.head? = some (legacyRequest e p)) := by
  refine ⟨?_, ?_, ?_, ?_, ?_, ?_, ?_, ?_, ?_⟩
  · intro e h; simp [selectBranch, h]
  · intro e h1 h2; simp [selectBranch, h1, h2]
  · intro e h1 h2; simp [selectBranch, h1, h2]
  · intro e h; simp [selectBranchV2, h]
  · intro e h1 h2; simp [selectBranchV2, h1, h2]
  · intro e h1 h2; simp [selectBranchV2, h1, h2]
  · intro env e p u h
    unfold fetchSwapTransaction
    rw [h]
    exact fetchAggregator_head env e p u
  · intro env e p u h
    unfold fetchSwapTransaction
    rw [h]
    exact fetchQuoteBranch_head env e p u
  · intro env e p u h
    unfold fetchSwapTransaction
    rw [h]
    exact fetchLegacy_head env e p

theorem c2_branch_selection_witness :
    selectBranch "https://a.example/route/solana/swap/quote" = .aggregator ∧
    selectBranchV2 "https://metaagg.velvetdao.xyz/api/v1/swap" = .aggregator ∧
    selectBranch "https://quote-api.jup.ag/v6/quote" = .quote ∧
    selectBranch "https://api.example.com/swaptx" = .legacy ∧
    (fetchSwapTransaction (fun _ => .ok ⟨200, "OK", "", none⟩)
      "https://api.example.com/swaptx" ⟨"MintA", "MintB", 1000, some 50⟩ "payer").2.head? =
      some (legacyRequest "https://api.example.com/swaptx" ⟨"MintA", "MintB", 1000, some 50⟩) :=
  ⟨c2_branch_selection.1 _ (by decide),
   c2_branch_selection.2.2.2.1 _ (by decide),
   c2_branch_selection.2.1 _ (by decide) (by decide),
   c2_branch_selection.2.2.1 _ (by decide) (by decide),
   c2_branch_selection.2.2.2.2.2.2.2.2 _ _ _ "payer" (by decide)⟩

/-- C3 counterexample: a non-200 relay body that is valid JSON but has
neither an `error` nor a `message` field — the empty object — yields the
generic message alone; the raw body text is not appended, refuting the
claimed "otherwise append the raw body text" rule. -/
theorem c3_counterexample :
    extractNon200Message 500 "\x7b\x7d" (some (.obj [])) =
      "0slot execution failed: incorrect status code: 500" ∧
    extractNon200Message 500 "\x7b\x7d" (some (.obj [])) ≠
      "0slot execution failed: incorrect status code: 500, \x7b\x7d" ∧
    jsIncludes (extractNon200Message 500 "\x7b\x7d" (some (.obj []))) "\x7b\x7d" = false := by
  refine ⟨rfl, by decide, rfl⟩

/-- C3 (amended): every non-200 relay response fails with a thrown error
whose message is extracted as follows.  If the body parses as JSON and is
not null: a truthy `error` field yields `error.message`, else
`error.code`, else the generic status message; otherwise a truthy
top-level `message` field yields that value; otherwise the generic status
message alone (the raw body is not appended).  Only when the body does
not parse as JSON — or parses to `null`, making `errorData.error` throw
into the same catch — is the raw body text appended to the generic
message, and only when that text is non-empty.  In particular a JSON body
with `message: "rate limited"` yields `"rate limited"`, and a non-JSON
body yields the generic message with the raw text appended.
`executeSwapWithOSlot` throws exactly this message whenever the relay
POST answers with a non-200 status. -/
theorem c3_non200_message_extraction :
    (∀ (st : Nat) (txt : String) (d : JsVal), isNullish d = false →
       truthy (getField d "error") = true →
       truthy (getField (getField d "error") "message") = true →
       extractNon200Message st txt (some d) =
         jsToString (getField (getField d "error") "message")) ∧
    (∀ (st : Nat) (txt : String) (d : JsVal), isNullish d = false →
       truthy (getField d "error") = true →
       truthy (getField (getField d "error") "message") = false →
       truthy (getField (getField d "error") "code") = true →
       extractNon200Message st txt (some d) =
         jsToString (getField (getField d "error") "code")) ∧
    (∀ (st : Nat) (txt : String) (d : JsVal), isNullish d = false →
       truthy (getField d "error") = false →
       truthy (getField d "message") = true →
       extractNon200Message st txt (some d) = jsToString (getField d "message")) ∧
    (∀ (st : Nat) (txt : String) (d : JsVal), isNullish d = false →
       truthy (getField d "error") = false →
       truthy (getField d "message") = false →
       extractNon200Message st txt (some d) = extractNon200Generic st) ∧
    (∀ (st : Nat) (txt : String), txt ≠ "" →
       extractNon200Message st txt none = extractNon200Generic st ++ ", " ++ txt) ∧
    (∀ st : Nat, extractNon200Message st "" none = extractNon200Generic st) ∧
    (∀ (st : Nat) (txt : String), txt ≠ "" →
       extractNon200Message st txt (some .null) =
         extractNon200Generic st ++ ", " ++ txt) ∧
    (∀ (τ : Type) (env : SubmitEnv τ) (tx ep : String) (t1 t2 : τ) (stx : String)
       (resp : HttpResponse),
       env.deserialize tx = .ok t1 → env.signTransaction t1 = .ok t2 →
       env.serializeB64 t2 = .ok stx →
       env.fetch (relayRequest ep stx) = .ok resp → resp.status ≠ 200 →
       (executeSwapWithOSlot env tx ep).1 =
         .err (.error (extractNon200Message resp.status resp.bodyText resp.bodyJson))) := by
  refine ⟨?_, ?_, ?_, ?_, ?_, ?_, ?_, ?_⟩
  · intro st txt d h1 h2 h3; simp [extractNon200Message, h1, h2, h3]
  · intro st txt d h1 h2 h3 h4; simp [extractNon200Message, h1, h2, h3, h4]
  · intro st txt d h1 h2 h3; simp [extractNon200Message, h1, h2, h3]
  · intro st txt d h1 h2 h3; simp [extractNon200Message, h1, h2, h3]
  · intro st txt h; simp [extractNon200Message, h]
  · intro st; rfl
  · intro st txt h; simp [extractNon200Message, isNullish, h]
  · intro τ env tx ep t1 t2 stx resp h1 h2 h3 h4 h5
    rw [executeSwap_eq_try, executeSwapTry_network env tx ep t1 t2 stx h1 h2 h3]
    simp [h4, h5]

theorem c3_non200_message_extraction_witness :
    extractNon200Message 429 "ignored" (some (.obj [("message", .str "rate limited")])) =
      "rate limited" ∧
    extractNon200Message 500 "gateway timeout" none =
      "0slot execution failed: incorrect status code: 500, gateway timeout" :=
  ⟨(c3_non200_message_extraction.2.2.1 429 "ignored"
      (.obj [("message", .str "rate limited")]) rfl rfl rfl).trans rfl,
   (c3_non200_message_extraction.2.2.2.2.1 500 "gateway timeout" (by decide)).trans rfl⟩

/-- C4 counterexample: a 2xx legacy-branch response whose JSON body is
`null` — which trivially misses every recognized transaction field — does
not fail with the invalid-response-shape error: the first field probe
(`data.transaction`) throws a `TypeError`, which is what the fetch
re-raises. -/
theorem c4_counterexample :
    (fetchSwapTransaction (fun _ => .ok ⟨200, "OK", "null", some .null⟩)
      "https://api.example.com/swaptx" ⟨"MintA", "MintB", 1000, some 50⟩ "payer").1 =
      .err .typeError ∧
    (fetchSwapTransaction (fun _ => .ok ⟨200, "OK", "null", some .null⟩)
      "https://api.example.com/swaptx" ⟨"MintA", "MintB", 1000, some 50⟩ "payer").1 ≠
      .err (.error "Invalid response format from swap endpoint") := by
  constructor <;> decide

/-- C4 (amended): in each of the three fetch branches, a 2xx JSON
response whose body is not null and carries no truthy recognized
transaction field makes fetch fail with that branch's
invalid-response-shape error (whose fixed message names the expected
shape); a 2xx body of JSON `null` instead fails with the `TypeError`
thrown by the first field probe.  In every branch, whatever the
environment, fetch never returns successfully with an untruthy value —
in particular never with the empty string and never with `undefined`. -/
theorem c4_invalid_response_shape :
    (∀ env e p u resp d, selectBranch e = .legacy →
       env (legacyRequest e p) = .ok resp → resp.isOkStatus = true →
       resp.bodyJson = some d → isNullish d = false →
       truthy (getField d "transaction") = false →
       truthy (getField d "swapTransaction") = false →
       truthy (getField d "tx") = false →
       (fetchSwapTransaction env e p u).1 =
         .err (.error "Invalid response format from swap endpoint")) ∧
    (∀ env e p u resp d, selectBranch e = .aggregator →
       env (aggregatorRequest e p u) = .ok resp → resp.isOkStatus = true →
       resp.bodyJson = some d → isNullish d = false →
       (truthy (getField d "data") &&
         truthy (getField (getField d "data") "swapData")) = false →
       (fetchSwapTransaction env e p u).1 =
         .err (.error "Invalid response format from swap endpoint. Expected data.swapData")) ∧
    (∀ env e p u qresp qd sresp sd, selectBranch e = .quote →
       env (quoteRequest e p) = .ok qresp → qresp.isOkStatus = true →
       qresp.bodyJson = some qd →
       env (jupiterSwapRequest qd u) = .ok sresp → sresp.isOkStatus = true →
       sresp.bodyJson = some sd → isNullish sd = false →
       truthy (getField sd "swapTransaction") = false →
       (fetchSwapTransaction env e p u).1 =
         .err (.error "Invalid response format from Jupiter swap API")) ∧
    (∀ env e p u resp, selectBranch e = .legacy →
       env (legacyRequest e p) = .ok resp → resp.isOkStatus = true →
       resp.bodyJson = some .null →
       (fetchSwapTransaction env e p u).1 = .err .typeError) ∧
    (∀ env e p u v, (fetchSwapTransaction env e p u).1 = .ok v →
       truthy v = true ∧ v ≠ .str "" ∧ v ≠ .undefined) := by
  refine ⟨?_, ?_, ?_, ?_, ?_⟩
  · intro env e p u resp d hsel henv hok hjson hnull h1 h2 h3
    rw [fetchSwapTransaction_legacy_eq env e p u resp d hsel henv hok hjson hnull]
    simp [h1, h2, h3]
  · intro env e p u resp d hsel henv hok hjson hnull hfields
    simp only [fetchSwapTransaction, hsel, fetchAggregator, henv, hok, hjson, hnull,
      hfields, Bool.not_true, Bool.false_eq_true, if_false]
  · intro env e p u qresp qd sresp sd hsel hqenv hqok hqjson hsenv hsok hsjson hnull hfield
    simp only [fetchSwapTransaction, hsel, fetchQuoteBranch, hqenv, hqok, hqjson,
      hsenv, hsok, hsjson, hnull, hfield, Bool.not_true, Bool.false_eq_true, if_false]
  · intro env e p u resp hsel henv hok hjson
    simp only [fetchSwapTransaction, hsel, fetchLegacy, henv, hok, hjson,
      Bool.not_true, Bool.false_eq_true, if_false, isNullish]
    simp
  · intro env e p u v h
    have ht := fetchSwapTransaction_ok_truthy env e p u v h
    refine ⟨ht, ?_, ?_⟩ <;> rintro rfl <;> simp [truthy] at ht

theorem c4_invalid_response_shape_witness :
    (fetchSwapTransaction (fun _ => .ok ⟨200, "OK", "\x7b\x7d", some (.obj [])⟩)
      "https://api.example.com/swaptx" ⟨"MintA", "MintB", 1000, some 50⟩ "payer").1 =
      .err (.error "Invalid response format from swap endpoint") :=
  c4_invalid_response_shape.1 (fun _ => .ok ⟨200, "OK", "\x7b\x7d", some (.obj [])⟩)
    "https://api.example.com/swaptx" ⟨"MintA", "MintB", 1000, some 50⟩ "payer"
    ⟨200, "OK", "\x7b\x7d", some (.obj [])⟩ (.obj [])
    (by decide) rfl rfl rfl rfl rfl rfl rfl

/-- C5 counterexample: in the legacy branch, a 2xx body in which
`transaction` is present but empty while `tx` holds `"abc"` returns
`"abc"` — not the value of the first present field — because the probes
test truthiness, not presence. -/
theorem c5_counterexample :
    (fetchSwapTransaction
      (fun _ => .ok ⟨200, "OK", "x", some (.obj [("transaction", .str ""), ("tx", .str "abc")])⟩)
      "https://api.example.com/swaptx" ⟨"MintA", "MintB", 1000, some 50⟩ "payer").1 =
      .ok (.str "abc") ∧
    (fetchSwapTransaction
      (fun _ => .ok ⟨200, "OK", "x", some (.obj [("transaction", .str ""), ("tx", .str "abc")])⟩)
      "https://api.example.com/swaptx" ⟨"MintA", "MintB", 1000, some 50⟩ "payer").1 ≠
      .ok (.str "") := by
  constructor <;> decide

/-- C5 (amended): in the legacy fetch branch, given a 2xx JSON response
whose body is not null, fetch returns the value of the first of the three
synonymous fields holding a truthy value, checked in the order
`transaction`, then `swapTransaction`, then `tx`, unchanged — a field
that is present but falsy (such as the empty string) is skipped; if none
is truthy, fetch fails with the invalid-response-shape error. -/
theorem c5_legacy_field_priority :
    ∀ env e p u resp d, selectBranch e = .legacy →
      env (legacyRequest e p) = .ok resp → resp.isOkStatus = true →
      resp.bodyJson = some d → isNullish d = false →
      (fetchSwapTransaction env e p u).1 = specLegacyExtract d := by
  intro env e p u resp d hsel henv hok hjson hnull
  rw [fetchSwapTransaction_legacy_eq env e p u resp d hsel henv hok hjson hnull]
  cases h1 : truthy (getField d "transaction") <;>
    cases h2 : truthy (getField d "swapTransaction") <;>
      cases h3 : truthy (getField d "tx") <;>
        simp [specLegacyExtract, legacyFieldOrder, List.find?, h1, h2, h3]

theorem c5_legacy_field_priority_witness :
    (fetchSwapTransaction (fun _ => .ok ⟨200, "OK", "x", some (.obj [("tx", .str "QUJD")])⟩)
      "https://api.example.com/swaptx" ⟨"MintA", "MintB", 1000, some 50⟩ "payer").1 =
      specLegacyExtract (.obj [("tx", .str "QUJD")]) :=
  c5_legacy_field_priority (fun _ => .ok ⟨200, "OK", "x", some (.obj [("tx", .str "QUJD")])⟩)
    "https://api.example.com/swaptx" ⟨"MintA", "MintB", 1000, some 50⟩ "payer"
    ⟨200, "OK", "x", some (.obj [("tx", .str "QUJD")])⟩ (.obj [("tx", .str "QUJD")])
    (by decide) rfl rfl rfl rfl

/-- C6 counterexample: the options object actually constructed as the
second params element carries a fifth property, `minContextSlot: null`,
so the built payload is not equal to the envelope the claim states (whose
options object has exactly `encoding`, `skipPreflight`,
`preflightCommitment`, `maxRetries`). -/
theorem c6_counterexample :
    getField (jsIndex (getField (oslotPayload "c2ln") "params") 1) "minContextSlot" =
      .null ∧
    getField (jsIndex (getField (specOSlotPayloadClaim "c2ln") "params") 1) "minContextSlot" =
      .undefined ∧
    oslotPayload "c2ln" ≠ specOSlotPayloadClaim "c2ln" := by
  refine ⟨rfl, rfl, by decide⟩

/-- C6 (amended): for every Protocol A submission whose decode, sign and
re-encode steps succeed, the single request sent to the relay is a POST
to the relay endpoint with the JSON content type, whose body is the
JSON-RPC 2.0 envelope with `jsonrpc: "2.0"`, `id: 1`, method
`sendTransaction`, and params equal to the two-element list
[base64 signed transaction, \x7bencoding: base64, skipPreflight: true,
preflightCommitment: processed, maxRetries: 0, minContextSlot: null\x7d]
— the options object additionally carrying `minContextSlot: null`. -/
theorem c6_jsonrpc_envelope :
    (∀ stx : String, oslotPayload stx =
      .obj [("jsonrpc", .str "2.0"),
            ("id", .num 1),
            ("method", .str "sendTransaction"),
            ("params", .arr [.str stx,
              .obj [("encoding", .str "base64"),
                    ("skipPreflight", .bool true),
                    ("preflightCommitment", .str "processed"),
                    ("maxRetries", .num 0),
                    ("minContextSlot", .null)]])]) ∧
    (∀ (τ : Type) (env : SubmitEnv τ) (tx ep : String) (t1 t2 : τ) (stx : String),
       env.deserialize tx = .ok t1 → env.signTransaction t1 = .ok t2 →
       env.serializeB64 t2 = .ok stx →
       (executeSwapWithOSlot env tx ep).2 =
         [⟨"POST", ep, true, some (oslotPayload stx)⟩]) := by
  refine ⟨fun stx => rfl, ?_⟩
  intro τ env tx ep t1 t2 stx h1 h2 h3
  rw [executeSwap_eq_try, executeSwapTry_network env tx ep t1 t2 stx h1 h2 h3]
  have : relayRequest ep stx = ⟨"POST", ep, true, some (oslotPayload stx)⟩ := rfl
  rw [← this]
  cases hf : env.fetch (relayRequest ep stx) with
  | error er => rfl
  | ok resp =>
    simp only
    repeat' split
    all_goals rfl

theorem c6_jsonrpc_envelope_witness :
    oslotPayload "c2lnbmVk" =
      .obj [("jsonrpc", .str "2.0"),
            ("id", .num 1),
            ("method", .str "sendTransaction"),
            ("params", .arr [.str "c2lnbmVk",
              .obj [("encoding", .str "base64"),
                    ("skipPreflight", .bool true),
                    ("preflightCommitment", .str "processed"),
                    ("maxRetries", .num 0),
                    ("minContextSlot", .null)]])] ∧
    (executeSwapWithOSlot
      (⟨fun _ => .ok (), fun t => .ok t, fun _ => .ok "c2lnbmVk",
        fun _ => .ok ⟨200, "OK", "", some (.obj [("result", .str "sig")])⟩⟩ : SubmitEnv Unit)
      "dHg=" "https://de1.0slot.trade/?api-key=k").2 =
      [⟨"POST", "https://de1.0slot.trade/?api-key=k", true, some (oslotPayload "c2lnbmVk")⟩] :=
  ⟨c6_jsonrpc_envelope.1 "c2lnbmVk",
   c6_jsonrpc_envelope.2 Unit
     (⟨fun _ => .ok (), fun t => .ok t, fun _ => .ok "c2lnbmVk",
       fun _ => .ok ⟨200, "OK", "", some (.obj [("result", .str "sig")])⟩⟩ : SubmitEnv Unit)
     "dHg=" "https://de1.0slot.trade/?api-key=k" () () "c2lnbmVk" rfl rfl rfl⟩

/-- C7 counterexample: a non-2xx response in the legacy branch produces
an error message carrying the status text only — the response body text
(`"quota exceeded"`) does not occur in it, refuting the claim that every
provider step's failure carries both the status text and the body
text. -/
theorem c7_counterexample :
    (fetchSwapTransaction (fun _ => .ok ⟨400, "Bad Request", "quota exceeded", none⟩)
      "https://api.example.com/swaptx" ⟨"MintA", "MintB", 1000, some 50⟩ "payer").1 =
      .err (.error "Failed to fetch swap transaction: Bad Request") ∧
    jsIncludes "Failed to fetch swap transaction: Bad Request" "quota exceeded" = false := by
  constructor <;> decide

/-- C7 (amended): every non-2xx HTTP response from a provider step makes
fetch fail with a thrown error, but what the message carries differs per
step: the aggregator GET carries both the status text and the body text;
the quote GET carries the status text only; the swap-construction POST
carries the body text only; the legacy POST carries the status text
only. -/
theorem c7_non2xx_fetch_errors :
    (∀ env e p u resp, selectBranch e = .aggregator →
       env (aggregatorRequest e p u) = .ok resp → resp.isOkStatus = false →
       (fetchSwapTransaction env e p u).1 =
         .err (.error ("Failed to fetch swap transaction: " ++ resp.statusText
           ++ " - " ++ resp.bodyText))) ∧
    (∀ env e p u resp, selectBranch e = .quote →
       env (quoteRequest e p) = .ok resp → resp.isOkStatus = false →
       (fetchSwapTransaction env e p u).1 =
         .err (.error ("Failed to get quote: " ++ resp.statusText))) ∧
    (∀ env e p u qresp qd sresp, selectBranch e = .quote →
       env (quoteRequest e p) = .ok qresp → qresp.isOkStatus = true →
       qresp.bodyJson = some qd →
       env (jupiterSwapRequest qd u) = .ok sresp → sresp.isOkStatus = false →
       (fetchSwapTransaction env e p u).1 =
         .err (.error ("Failed to get swap transaction: " ++ sresp.bodyText))) ∧
    (∀ env e p u resp, selectBranch e = .legacy →
       env (legacyRequest e p) = .ok resp → resp.isOkStatus = false →
       (fetchSwapTransaction env e p u).1 =
         .err (.error ("Failed to fetch swap transaction: " ++ resp.statusText))) := by
  refine ⟨?_, ?_, ?_, ?_⟩
  · intro env e p u resp hsel henv hok
    simp only [fetchSwapTransaction, hsel, fetchAggregator, henv, hok,
      Bool.not_false, if_true]
  · intro env e p u resp hsel henv hok
    simp only [fetchSwapTransaction, hsel, fetchQuoteBranch, henv, hok,
      Bool.not_false, if_true]
  · intro env e p u qresp qd sresp hsel hqenv hqok hqjson hsenv hsok
    simp only [fetchSwapTransaction, hsel, fetchQuoteBranch, hqenv, hqok, hqjson,
      hsenv, hsok, Bool.not_true, Bool.not_false, Bool.false_eq_true, if_false, if_true]
  · intro env e p u resp hsel henv hok
    simp only [fetchSwapTransaction, hsel, fetchLegacy, henv, hok,
      Bool.not_false, if_true]

theorem c7_non2xx_fetch_errors_witness :
    (fetchSwapTransaction (fun _ => .ok ⟨503, "Service Unavailable", "try later", none⟩)
      "https://metaagg.velvetdao.xyz/api/v1/route/solana/swap"
      ⟨"MintA", "MintB", 1000, some 50⟩ "payer").1 =
      .err (.error "Failed to fetch swap transaction: Service Unavailable - try later") ∧
    (fetchSwapTransaction (fun _ => .ok ⟨500, "Internal Server Error", "boom", none⟩)
      "https://quote-api.jup.ag/v6/quote" ⟨"MintA", "MintB", 1000, some 50⟩ "payer").1 =
      .err (.error "Failed to get quote: Internal Server Error") ∧
    (fetchSwapTransaction (fun _ => .ok ⟨404, "Not Found", "nope", none⟩)
      "https://api.example.com/swaptx" ⟨"MintA", "MintB", 1000, some 50⟩ "payer").1 =
      .err (.error "Failed to fetch swap transaction: Not Found") :=
  ⟨(c7_non2xx_fetch_errors.1 (fun _ => .ok ⟨503, "Service Unavailable", "try later", none⟩)
      "https://metaagg.velvetdao.xyz/api/v1/route/solana/swap"
      ⟨"MintA", "MintB", 1000, some 50⟩ "payer"
      ⟨503, "Service Unavailable", "try later", none⟩ (by decide) rfl rfl).trans rfl,
   (c7_non2xx_fetch_errors.2.1 (fun _ => .ok ⟨500, "Internal Server Error", "boom", none⟩)
      "https://quote-api.jup.ag/v6/quote" ⟨"MintA", "MintB", 1000, some 50⟩ "payer"
      ⟨500, "Internal Server Error", "boom", none⟩ (by decide) rfl rfl).trans rfl,
   (c7_non2xx_fetch_errors.2.2.2 (fun _ => .ok ⟨404, "Not Found", "nope", none⟩)
      "https://api.example.com/swaptx" ⟨"MintA", "MintB", 1000, some 50⟩ "payer"
      ⟨404, "Not Found", "nope", none⟩ (by decide) rfl rfl).trans rfl⟩

/-- C8: the top-level catch of `executeSwapWithOSlot` only records the
elapsed time and re-raises the caught error unchanged, so the function is
extensionally its own try body; every submission yields exactly one
outcome — a returned ConfirmationId or a single thrown error, never both,
never neither — and at most one relay request is ever issued (no
retry). -/
theorem c8_single_outcome_no_retry :
    ∀ (τ : Type) (env : SubmitEnv τ) (tx ep : String),
      executeSwapWithOSlot env tx ep = executeSwapTry env tx ep ∧
      (executeSwapWithOSlot env tx ep).2.length ≤ 1 ∧
      ((∃ v, (executeSwapWithOSlot env tx ep).1 = .ok v) ↔
        ¬ ∃ er, (executeSwapWithOSlot env tx ep).1 = .err er) := by
  intro τ env tx ep
  refine ⟨executeSwap_eq_try env tx ep, ?_, ?_⟩
  · rw [executeSwap_eq_try]
    unfold executeSwapTry
    repeat' split
    all_goals simp
  · cases h : (executeSwapWithOSlot env tx ep).1 with
    | ok v => simp [h]
    | err e => simp [h]

/-- C9: every response-field probe in both operations tests JavaScript
truthiness rather than key presence: whatever the environment, neither
`executeSwapWithOSlot` nor `fetchSwapTransaction` ever returns an untruthy
value successfully — in particular never an empty string — and a field
holding the empty string behaves exactly as an absent field, as witnessed
on the relay normalization (`result: ""`) and on a legacy response
(`transaction: ""`). -/
theorem c9_truthiness_probes :
    (∀ (τ : Type) (env : SubmitEnv τ) (tx ep : String) (v : JsVal),
       (executeSwapWithOSlot env tx ep).1 = .ok v → truthy v = true) ∧
    (∀ env e p u v, (fetchSwapTransaction env e p u).1 = .ok v → truthy v = true) ∧
    executeSwapNormalize200 (.obj [("result", .str "")]) =
      executeSwapNormalize200 (.obj []) ∧
    (fetchSwapTransaction
      (fun _ => .ok ⟨200, "OK", "x", some (.obj [("transaction", .str "")])⟩)
      "https://api.example.com/swaptx" ⟨"MintA", "MintB", 1000, some 50⟩ "payer").1 =
    (fetchSwapTransaction (fun _ => .ok ⟨200, "OK", "x", some (.obj [])⟩)
      "https://api.example.com/swaptx" ⟨"MintA", "MintB", 1000, some 50⟩ "payer").1 := by
  refine ⟨?_, fetchSwapTransaction_ok_truthy, rfl, by decide⟩
  intro τ env tx ep v h
  rw [executeSwap_eq_try] at h
  exact executeSwapTry_ok_truthy env tx ep v h

theorem c9_truthiness_probes_witness :
    truthy (.str "sigOk") = true :=
  c9_truthiness_probes.2.1
    (fun _ => .ok ⟨200, "OK", "x", some (.obj [("tx", .str "sigOk")])⟩)
    "https://api.example.com/swaptx" ⟨"MintA", "MintB", 1000, some 50⟩ "payer"
    (.str "sigOk") (by decide)

/-- C10: the default-to-50 rule for slippage applies to any falsy value,
not only a missing one: `slippageBps || 50` maps an explicit 0 (and an
absent value) to 50 in both the aggregator and the quote branches, so the
outgoing request of either branch is identical for `slippageBps = 0` and
`slippageBps = 50`, and a caller cannot request zero slippage
tolerance. -/
theorem c10_slippage_zero_default :
    slippageOr50 (some 0) = 50 ∧
    slippageOr50 none = 50 ∧
    (∀ n : Int, n ≠ 0 → slippageOr50 (some n) = n) ∧
    (∀ (p : SwapParams) (u : String), p.slippageBps = some 0 →
       aggregatorQuery p u = aggregatorQuery { p with slippageBps := none } u ∧
       quoteQuery p = quoteQuery { p with slippageBps := none }) ∧
    (∀ env e p u, selectBranch e = .aggregator → p.slippageBps = some 0 →
       (fetchSwapTransaction env e p u).2.head? =
         some (aggregatorRequest e { p with slippageBps := some 50 } u)) ∧
    (∀ env e p u, selectBranch e = .quote → p.slippageBps = some 0 →
       (fetchSwapTransaction env e p u).2.head? =
         some (quoteRequest e { p with slippageBps := some 50 })) := by
  refine ⟨rfl, rfl, ?_, ?_, ?_, ?_⟩
  · intro n h; simp [slippageOr50, h]
  · intro p u h
    obtain ⟨i, o, a, s⟩ := p
    have hs : s = some 0 := h
    subst hs
    exact ⟨rfl, rfl⟩
  · intro env e p u hsel h
    obtain ⟨i, o, a, s⟩ := p
    have hs : s = some 0 := h
    subst hs
    unfold fetchSwapTransaction
    rw [hsel]
    exact fetchAggregator_head env e ⟨i, o, a, some 0⟩ u
  · intro env e p u hsel h
    obtain ⟨i, o, a, s⟩ := p
    have hs : s = some 0 := h
    subst hs
    unfold fetchSwapTransaction
    rw [hsel]
    exact fetchQuoteBranch_head env e ⟨i, o, a, some 0⟩ u

theorem c10_slippage_zero_default_witness :
    aggregatorQuery ⟨"MintA", "MintB", 1000, some 0⟩ "payer" =
      aggregatorQuery ⟨"MintA", "MintB", 1000, none⟩ "payer" ∧
    (fetchSwapTransaction (fun _ => .ok ⟨200, "OK", "", none⟩)
      "https://metaagg.velvetdao.xyz/api/v1/route/solana/swap"
      ⟨"MintA", "MintB", 1000, some 0⟩ "payer").2.head? =
      some (aggregatorRequest "https://metaagg.velvetdao.xyz/api/v1/route/solana/swap"
        ⟨"MintA", "MintB", 1000, some 50⟩ "payer") :=
  ⟨(c10_slippage_zero_default.2.2.2.1 ⟨"MintA", "MintB", 1000, some 0⟩ "payer" rfl).1,
   c10_slippage_zero_default.2.2.2.2.1 (fun _ => .ok ⟨200, "OK", "", none⟩)
     "https://metaagg.velvetdao.xyz/api/v1/route/solana/swap"
     ⟨"MintA", "MintB", 1000, some 0⟩ "payer" (by decide) rfl⟩

theorem c8_single_outcome_no_retry_witness :
    executeSwapWithOSlot
      (⟨fun _ => .ok (), fun t => .ok t, fun _ => .ok "c2ln",
        fun _ => .ok ⟨200, "OK", "", some (.obj [("result", .str "sig")])⟩⟩ : SubmitEnv Unit)
      "dHg=" "https://de1.0slot.trade/?api-key=k" =
    executeSwapTry
      (⟨fun _ => .ok (), fun t => .ok t, fun _ => .ok "c2ln",
        fun _ => .ok ⟨200, "OK", "", some (.obj [("result", .str "sig")])⟩⟩ : SubmitEnv Unit)
      "dHg=" "https://de1.0slot.trade/?api-key=k" :=
  (c8_single_outcome_no_retry Unit
    (⟨fun _ => .ok (), fun t => .ok t, fun _ => .ok "c2ln",
      fun _ => .ok ⟨200, "OK", "", some (.obj [("result", .str "sig")])⟩⟩ : SubmitEnv Unit)
    "dHg=" "https://de1.0slot.trade/?api-key=k").1
